import Mathlib

/-!
Shallow embedding of the Health repository's Google-Fit fetch core:
the token refresh service (`GoogleTokenRefreshService`), the request
executor (`GoogleFitService.makeFitRequest`), the nine metric fetchers,
the daily-record merge (`HealthDataService.saveHealthData`), the
orchestrator (`HealthDataService.fetchAndSaveHealthData`) and the
backfill loop (`HealthDataService.fetchRealDataFromGoogleFit`).

Conventions: JavaScript numbers are modelled as `Int`/`ℚ`; JS `null` and
`undefined` collapse to `Option.none` except where the distinction matters
(`JsVal` for `Object.assign` key-presence); JS truthiness (`||`, `if (x)`)
is modelled explicitly, including falsiness of `0` and `""`.
-/

namespace HealthFit

/-- A stored user row, restricted to the credential pair
(`users` entity: `access_token`, `refresh_token`, both nullable). -/
structure UserRec where
  access_token : Option String
  refresh_token : Option String
deriving DecidableEq, Repr

/-- Outcome of the provider's token-exchange endpoint
(`https://oauth2.googleapis.com/token`): either `{access_token, refresh_token?}`
or an HTTP error status. -/
inductive TokenResp where
  | ok (access : String) (refresh : Option String)
  | err (status : Nat)
deriving DecidableEq, Repr

/-- An `HttpException` / tagged error as thrown by the services:
HTTP status plus message. -/
structure HErr where
  status : Nat
  message : String
deriving DecidableEq, Repr

/-- JS `a || b` where `a : string | undefined` — `undefined` and `""` are falsy. -/
def jsOrStr (a : Option String) (b : String) : String :=
  match a with
  | some s => if s = "" then b else s
  | none => b

/-- JS `a || b` on numbers where only `0` is falsy (statuses are `Nat`s). -/
def jsOrNat (a : Nat) (b : Nat) : Nat :=
  if a = 0 then b else a

def userNotFoundErr : HErr := ⟨404, "User not found"⟩

def noRefreshTokenErr : HErr := ⟨401, "No refresh token available. Please re-authenticate."⟩

def refreshExpiredErr : HErr := ⟨401, "Refresh token expired. Please re-authenticate."⟩

def refreshFailedErr : HErr := ⟨500, "Failed to refresh access token"⟩

/-- `GoogleTokenRefreshService.refreshAccessToken` (health.controller.ts,
`src/auth/google-token-refresh.service.ts` part): looks up the user, fails if
absent or without a refresh token, exchanges the refresh token at the token
endpoint, persists the new pair via `UsersService.updateTokens` (the returned
`UserRec` is the persisted row), keeping the old refresh token when the
provider does not issue one (`refresh_token || user.refresh_token`).
A provider 400 means the refresh token itself was rejected. -/
def refreshAccessToken (user : Option UserRec) (tokenEndpoint : TokenResp) :
    Except HErr (String × UserRec) :=
  match user with
  | none => .error userNotFoundErr
  | some u =>
    match u.refresh_token with
    | none => .error noRefreshTokenErr
    | some rt =>
      if rt = "" then .error noRefreshTokenErr
      else
        match tokenEndpoint with
        | .ok access refresh =>
            .ok (access, ⟨some access, some (jsOrStr refresh rt)⟩)
        | .err status =>
            if status = 400 then .error refreshExpiredErr else .error refreshFailedErr

def notAuthGoogleErr : HErr := ⟨401, "User not authenticated with Google"⟩

/-- `GoogleTokenRefreshService.getValidAccessToken`: returns the stored access
token, failing when the user or token is missing (`!user || !user.access_token`;
the empty string is falsy). -/
def getValidAccessToken (user : Option UserRec) : Except HErr String :=
  match user with
  | none => .error notAuthGoogleErr
  | some u =>
    match u.access_token with
    | none => .error notAuthGoogleErr
    | some t => if t = "" then .error notAuthGoogleErr else .ok t

/-- An error surfaced by `makeFitRequest` to its callers (custom error objects
carrying `status` and `message`, and `HttpException`s). -/
structure FitError where
  status : Nat
  message : String
deriving DecidableEq, Repr

def notAuthFitErr : FitError := ⟨401, "User not authenticated with Google Fit"⟩

/-- `GoogleFitService.getAccessToken`: wraps any `getValidAccessToken` failure
into a single 401 `HttpException`. -/
def getAccessToken (user : Option UserRec) : Except FitError String :=
  match getValidAccessToken user with
  | .ok t => .ok t
  | .error _ => .error notAuthFitErr

/-- A provider metrics-endpoint response for one HTTP call: payload or an
error status with the optional `error.message` of the response body. -/
inductive HttpResp (α : Type) where
  | ok (data : α)
  | err (status : Nat) (msg : Option String)
deriving DecidableEq

def reAuthMsg : String := "Google Fit token expired and refresh failed. Please re-authenticate."

def afterRefreshMsg : String := "Google Fit API error after token refresh"

def unavailableMsg : String := "Data type not available or permission denied"

def genericFitMsg : String := "Google Fit API error"

/-- Result of one `makeFitRequest` invocation, instrumented with the number of
refresh attempts and the list of bearer tokens used for provider calls, in
order (the code's side effects, made observable). -/
structure ExecResult (α : Type) where
  result : Except FitError α
  refreshCalls : Nat
  callTokens : List String

/-- Outcome mapping applied by `makeFitRequest` to the retried call
(success passes through; failure becomes the custom after-refresh error). -/
def retryOutcome {α : Type} (r : HttpResp α) : Except FitError α :=
  match r with
  | .ok d => .ok d
  | .err s m => .error ⟨jsOrNat s 500, jsOrStr m afterRefreshMsg⟩

/-- `GoogleFitService.makeFitRequest`: look up the access token, issue the call,
and on a 401 run `refreshTokenIfNeeded` (one `refreshAccessToken` attempt);
the refreshed token is then guarded by JS truthiness (`if (newToken)`), so a
refresh failure — and equally a refresh that yields an empty (falsy) token —
surfaces the re-authentication error without retrying, while a truthy new
token triggers exactly one retry of the same call, the retry's outcome being
final. A 403 and every other status map to their distinguished errors.
`call` is the provider's response as a function of the bearer token used. -/
def makeFitRequestT {α : Type} (user : Option UserRec)
    (call : String → HttpResp α) (tokenEndpoint : TokenResp) : ExecResult α :=
  match getAccessToken user with
  | .error e => ⟨.error e, 0, []⟩
  | .ok tok =>
    match call tok with
    | .ok d => ⟨.ok d, 0, [tok]⟩
    | .err status msg =>
      if status = 401 then
        match refreshAccessToken user tokenEndpoint with
        | .ok (newTok, _) =>
          if newTok = "" then ⟨.error ⟨401, reAuthMsg⟩, 1, [tok]⟩
          else ⟨retryOutcome (call newTok), 1, [tok, newTok]⟩
        | .error _ => ⟨.error ⟨401, reAuthMsg⟩, 1, [tok]⟩
      else if status = 403 then ⟨.error ⟨403, jsOrStr msg unavailableMsg⟩, 0, [tok]⟩
      else ⟨.error ⟨jsOrNat status 500, jsOrStr msg genericFitMsg⟩, 0, [tok]⟩

/-! ## Provider response data model

A point's `value[0]` is embedded directly as the optional `fpVal`/`intVal`
fields; `startTimeNanos`/`endTimeNanos` are nanosecond timestamps
(`none` = field missing or empty). -/

/-- One timestamped observation (`point` with its `value[0]` inlined). -/
structure FitPoint where
  startTimeNanos : Option Int
  endTimeNanos : Option Int
  fpVal : Option ℚ
  intVal : Option Int
deriving DecidableEq, Repr

/-- One `dataset` entry of a bucket. -/
structure FitDataset where
  point : List FitPoint
deriving DecidableEq, Repr

/-- One time bucket of an aggregate response. -/
structure FitBucket where
  dataset : List FitDataset
deriving DecidableEq, Repr

/-- An aggregate (`dataset:aggregate`) response. -/
structure AggResp where
  bucket : List FitBucket
deriving DecidableEq, Repr

/-- `bucket.dataset?.[0]?.point?.[0]` -/
def bucketFirstPoint (b : FitBucket) : Option FitPoint :=
  b.dataset.head?.bind (fun d => d.point.head?)

/-- `bucket.dataset?.[0]?.point?.[0]?.value?.[0]?.intVal` -/
def bucketFirstIntVal (b : FitBucket) : Option Int :=
  (bucketFirstPoint b).bind (fun p => p.intVal)

/-- `bucket.dataset?.[0]?.point?.[0]?.value?.[0]?.fpVal` -/
def bucketFirstFpVal (b : FitBucket) : Option ℚ :=
  (bucketFirstPoint b).bind (fun p => p.fpVal)

/-! ## The simple metric fetchers

Each fetcher takes the outcome of its `makeFitRequest` call; its `catch`
branches (403 and any other error) all produce the fallback default. -/

/-- Summation loop of `fetchSteps`: add each bucket's
`dataset[0].point[0].value[0].intVal` when truthy (present and nonzero). -/
def stepsTotal (r : AggResp) : Int :=
  r.bucket.foldl
    (fun acc b =>
      match bucketFirstIntVal b with
      | some v => if v = 0 then acc else acc + v
      | none => acc) 0

/-- `GoogleFitService.fetchSteps`: the summed total on success, `0` from the
catch-all on any executor failure. -/
def fetchStepsE (r : Except FitError AggResp) : Int :=
  match r with
  | .ok resp => stepsTotal resp
  | .error _ => 0

/-- Summation loop of `fetchCalories`/`fetchDistance`/`fetchActiveMinutes`
over `fpVal`: add each bucket's first point's `fpVal` when truthy. -/
def fpTotal (r : AggResp) : ℚ :=
  r.bucket.foldl
    (fun acc b =>
      match bucketFirstFpVal b with
      | some v => if v = 0 then acc else acc + v
      | none => acc) 0

/-- `GoogleFitService.fetchCalories`: `Math.round` of the summed `fpVal`s on
success, `null` on any executor failure (403 or otherwise). -/
def fetchCaloriesE (r : Except FitError AggResp) : Option Int :=
  match r with
  | .ok resp => some (round (fpTotal resp))
  | .error _ => none

/-- `GoogleFitService.fetchDistance`: summed `fpVal`s divided by 1000
(meters to kilometers) on success, `null` on failure. -/
def fetchDistanceE (r : Except FitError AggResp) : Option ℚ :=
  match r with
  | .ok resp => some (fpTotal resp / 1000)
  | .error _ => none

/-- Summation loop of `fetchActiveMinutes` over `intVal`, like `stepsTotal`. -/
def activeMinutesTotal (r : AggResp) : Int := stepsTotal r

/-- `GoogleFitService.fetchActiveMinutes`: the summed total when positive,
otherwise `null` (`totalActiveMinutes > 0 ? totalActiveMinutes : null`);
`null` on any executor failure. -/
def fetchActiveMinutesE (r : Except FitError AggResp) : Option Int :=
  match r with
  | .ok resp => if 0 < activeMinutesTotal resp then some (activeMinutesTotal resp) else none
  | .error _ => none

/-- Last-bucket extraction of `fetchWeight`/`fetchHeight`/`fetchSpeed`: the
last bucket's first point's `fpVal`, when truthy. -/
def lastBucketFirstFpVal (r : AggResp) : Option ℚ :=
  match r.bucket.getLast? with
  | none => none
  | some b =>
    match bucketFirstFpVal b with
    | some v => if v = 0 then none else some v
    | none => none

/-- `GoogleFitService.fetchWeight`: latest bucket's first point value (kg). -/
def fetchWeightE (r : Except FitError AggResp) : Option ℚ :=
  match r with
  | .ok resp => lastBucketFirstFpVal resp
  | .error _ => none

/-- `GoogleFitService.fetchHeight`: latest bucket's first point value (m). -/
def fetchHeightE (r : Except FitError AggResp) : Option ℚ :=
  match r with
  | .ok resp => lastBucketFirstFpVal resp
  | .error _ => none

/-- `GoogleFitService.fetchSpeed`: latest bucket's first point value,
converted m/s to km/h (`* 3.6`). -/
def fetchSpeedE (r : Except FitError AggResp) : Option ℚ :=
  match r with
  | .ok resp => (lastBucketFirstFpVal resp).map (fun v => v * (18 / 5 : ℚ))
  | .error _ => none

/-- Duration of one sleep segment: `endTimeNanos - startTimeNanos` when both
fields are present (`if (point.startTimeNanos && point.endTimeNanos)`). -/
def pointDurationNanos (p : FitPoint) : Int :=
  match p.startTimeNanos, p.endTimeNanos with
  | some s, some e => e - s
  | _, _ => 0

/-- Summation loop of `fetchSleepDuration`: total nanoseconds over every
point of each bucket's `dataset[0]`. -/
def sleepTotalNanos (r : AggResp) : Int :=
  r.bucket.foldl
    (fun acc b =>
      match b.dataset.head? with
      | none => acc
      | some d => acc + d.point.foldl (fun a p => a + pointDurationNanos p) 0) 0

/-- `GoogleFitService.fetchSleepDuration`: nanoseconds summed to milliseconds
then hours; `null` when the bucket list is empty, when the total is not
positive, or on any executor failure. -/
def fetchSleepE (r : Except FitError AggResp) : Option ℚ :=
  match r with
  | .error _ => none
  | .ok resp =>
    if 0 < resp.bucket.length then
      let totalMs : ℚ := (sleepTotalNanos resp : ℚ) / 1000000
      if 0 < totalMs then some (totalMs / (1000 * 60 * 60)) else none
    else none

/-! ## Heart-rate resolver (`GoogleFitService.fetchHeartRate`) -/

/-- Value extraction of the heart-rate stages: `fpVal` if present
(`!== undefined`), else `intVal` if present, else no value. -/
def jsPointVal (p : FitPoint) : Option ℚ :=
  match p.fpVal with
  | some v => some v
  | none =>
    match p.intVal with
    | some n => some (n : ℚ)
    | none => none

/-- `parseInt(point.startTimeNanos) || 0`. -/
def parseTs (p : FitPoint) : Int := p.startTimeNanos.getD 0

/-- Mutable state of the aggregate-stage scan: the latest measurement
(already rounded), its timestamp, and the running list of all values. -/
structure HrScan where
  latestHR : Option Int
  latestTS : Int
  vals : List ℚ
deriving DecidableEq, Repr

/-- One aggregate-stage point visit: record the value and update the latest
measurement when this point's timestamp is strictly newer. -/
def hrStep (s : HrScan) (p : FitPoint) : HrScan :=
  match jsPointVal p with
  | none => s
  | some v =>
    if s.latestTS < parseTs p then ⟨some (round v), parseTs p, s.vals ++ [v]⟩
    else ⟨s.latestHR, s.latestTS, s.vals ++ [v]⟩

/-- Every point of every dataset of every bucket, in scan order
(the triple nested `forEach`). -/
def allPoints (r : AggResp) : List FitPoint :=
  r.bucket.flatMap (fun b => b.dataset.flatMap (fun d => d.point))

/-- The aggregate-stage scan over a whole response. -/
def hrScanAll (r : AggResp) : HrScan :=
  (allPoints r).foldl hrStep ⟨none, 0, []⟩

/-- Stage 1 of `fetchHeartRate`: scan the aggregate response; return the
latest measurement if one was found, else the rounded mean of all collected
values, else nothing (which triggers the raw-source fallback). -/
def hrAggExtract (r : AggResp) : Option Int :=
  if 0 < r.bucket.length then
    match hrScanAll r with
    | ⟨some hr, _, _⟩ => some hr
    | ⟨none, _, vals⟩ =>
      if 0 < vals.length then some (round (vals.sum / (vals.length : ℚ)))
      else none
  else none

/-- Mutable state of the raw-dataset scan (no running value list:
the raw stage keeps only the latest measurement). -/
structure RawScan where
  latestHR : Option Int
  latestTS : Int
deriving DecidableEq, Repr

/-- One raw-dataset point visit (latest-by-timestamp only). -/
def rawStep (s : RawScan) (p : FitPoint) : RawScan :=
  match jsPointVal p with
  | none => s
  | some v =>
    if s.latestTS < parseTs p then ⟨some (round v), parseTs p⟩
    else s

/-- Raw-dataset extraction: the latest measurement of the point list,
if any point with a positive timestamp carries a value. -/
def rawExtract (ps : List FitPoint) : Option Int :=
  (ps.foldl rawStep ⟨none, 0⟩).latestHR

/-- A raw dataset response (`point` list). -/
structure DatasetResp where
  point : List FitPoint
deriving DecidableEq, Repr

/-- One registered raw data stream together with the outcome of fetching its
dataset for the window. -/
structure StreamFetch where
  dataset : Except FitError DatasetResp

/-- Stage 2 per-stream loop of `fetchHeartRate`: for each stream in listing
order, fetch its dataset (failures are swallowed and the next stream tried),
and return the first latest-by-timestamp value found. -/
def tryStreams : List StreamFetch → Option Int
  | [] => none
  | s :: rest =>
    match s.dataset with
    | .error _ => tryStreams rest
    | .ok d =>
      if 0 < d.point.length then
        match rawExtract d.point with
        | some hr => some hr
        | none => tryStreams rest
      else tryStreams rest

/-- Inputs of one `fetchHeartRate` run: the aggregate-call outcome and the
data-source listing (each stream paired with its dataset-call outcome). -/
structure HrWorld where
  agg : Except FitError AggResp
  sources : Except FitError (List StreamFetch)

/-- `GoogleFitService.fetchHeartRate`: the aggregate stage, then — only when
it yields nothing — the raw-source fallback; every error path (including a
403 on the aggregate call and a failed data-source listing) degrades to
`null`. -/
def fetchHeartRateW (w : HrWorld) : Option Int :=
  match w.agg with
  | .error _ => none
  | .ok r =>
    match hrAggExtract r with
    | some hr => some hr
    | none =>
      match w.sources with
      | .error _ => none
      | .ok streams => tryStreams streams

/-! ## Orchestrator (`HealthDataService.fetchAndSaveHealthData`) -/

/-- The merged daily record assembled by the orchestrator (the nine settled
metric values, with each rejection already replaced by its default). -/
structure DailyRecord where
  steps : Int
  heart_rate : Option Int
  calories : Option Int
  distance : Option ℚ
  weight : Option ℚ
  height : Option ℚ
  sleep_duration : Option ℚ
  active_minutes : Option Int
  speed : Option ℚ
deriving DecidableEq, Repr

/-- The per-metric `makeFitRequest` outcomes feeding one orchestration run. -/
structure FetchWorld where
  stepsR : Except FitError AggResp
  hrW : HrWorld
  caloriesR : Except FitError AggResp
  distanceR : Except FitError AggResp
  weightR : Except FitError AggResp
  heightR : Except FitError AggResp
  sleepR : Except FitError AggResp
  activeR : Except FitError AggResp
  speedR : Except FitError AggResp

/-- Assembly of the merged record from the nine fetcher outcomes
(`Promise.allSettled` then value extraction; since every fetcher catches its
own errors, each slot settles fulfilled with the fetcher's return value). -/
def fetchAllW (w : FetchWorld) : DailyRecord :=
  { steps := fetchStepsE w.stepsR
    heart_rate := fetchHeartRateW w.hrW
    calories := fetchCaloriesE w.caloriesR
    distance := fetchDistanceE w.distanceR
    weight := fetchWeightE w.weightR
    height := fetchHeightE w.heightR
    sleep_duration := fetchSleepE w.sleepR
    active_minutes := fetchActiveMinutesE w.activeR
    speed := fetchSpeedE w.speedR }

/-- The provider's behavior for one orchestration run: each metric call's
response as a function of the bearer token, the heart-rate data-source
listing (stream ids), and each stream's dataset response as a function of
stream id and token. -/
structure ProviderCalls where
  stepsCall : String → HttpResp AggResp
  hrAggCall : String → HttpResp AggResp
  hrSourcesCall : String → HttpResp (List String)
  hrDatasetCall : String → String → HttpResp DatasetResp
  caloriesCall : String → HttpResp AggResp
  distanceCall : String → HttpResp AggResp
  weightCall : String → HttpResp AggResp
  heightCall : String → HttpResp AggResp
  sleepCall : String → HttpResp AggResp
  activeCall : String → HttpResp AggResp
  speedCall : String → HttpResp AggResp

/-- The nine fetchers' `makeFitRequest` outcomes for a given user and
provider (each fetcher issues its own calls through the executor). -/
def worldOf (user : Option UserRec) (pc : ProviderCalls) (tokenEndpoint : TokenResp) :
    FetchWorld :=
  { stepsR := (makeFitRequestT user pc.stepsCall tokenEndpoint).result
    hrW :=
      { agg := (makeFitRequestT user pc.hrAggCall tokenEndpoint).result
        sources :=
          match (makeFitRequestT user pc.hrSourcesCall tokenEndpoint).result with
          | .error e => .error e
          | .ok ids =>
              .ok (ids.map (fun i =>
                ⟨(makeFitRequestT user (pc.hrDatasetCall i) tokenEndpoint).result⟩)) }
    caloriesR := (makeFitRequestT user pc.caloriesCall tokenEndpoint).result
    distanceR := (makeFitRequestT user pc.distanceCall tokenEndpoint).result
    weightR := (makeFitRequestT user pc.weightCall tokenEndpoint).result
    heightR := (makeFitRequestT user pc.heightCall tokenEndpoint).result
    sleepR := (makeFitRequestT user pc.sleepCall tokenEndpoint).result
    activeR := (makeFitRequestT user pc.activeCall tokenEndpoint).result
    speedR := (makeFitRequestT user pc.speedCall tokenEndpoint).result }

/-- `HealthDataService.fetchAndSaveHealthData`, up to the storage upsert:
typed with `Except` to record whether a hard failure escapes to the caller.
Every fetcher catches its own errors (including the executor's
no-credential 401), so the assembly always completes with a record. -/
def fetchAndSaveHealthDataE (user : Option UserRec) (pc : ProviderCalls)
    (tokenEndpoint : TokenResp) : Except FitError DailyRecord :=
  .ok (fetchAllW (worldOf user pc tokenEndpoint))

/-- The all-default merged record (steps `0`, every other metric absent). -/
def defaultRecord : DailyRecord :=
  ⟨0, none, none, none, none, none, none, none, none⟩

/-! ## Daily-record merge (`HealthDataService.saveHealthData`) -/

/-- The nine metric columns of a `user_health_data` row. -/
inductive Metric where
  | steps | heartRate | calories | distance | weight | height
  | sleepDuration | activeMinutes | speed
deriving DecidableEq, Repr

/-- A JS object field as seen by `Object.assign`: key missing, key present
with `null`, or key present with a number. -/
inductive JsVal where
  | missing
  | nullVal
  | num (q : ℚ)
deriving DecidableEq, Repr

/-- The stored row's metric columns (`none` = SQL `NULL`). -/
def StoredFields : Type := Metric → Option ℚ

/-- The `data` argument of `saveHealthData`. -/
def HealthUpdate : Type := Metric → JsVal

/-- `Object.assign(healthData, data)`: every key present in `data` overwrites
the stored column — including keys whose value is `null`; only missing keys
leave the stored value in place. -/
def objectAssign (stored : StoredFields) (data : HealthUpdate) : StoredFields :=
  fun m =>
    match data m with
    | .missing => stored m
    | .nullVal => none
    | .num q => some q

/-- JS `x || d` on an object field holding a number: `undefined`, `null`
and `0` all fall through to the default. -/
def jsNumOr (v : JsVal) (dflt : Option ℚ) : Option ℚ :=
  match v with
  | .num q => if q = 0 then dflt else some q
  | _ => dflt

/-- The fresh-row branch of `saveHealthData` (`data.steps || 0`, and
`data.x || null` for the other columns). -/
def createHealthRow (data : HealthUpdate) : StoredFields :=
  fun m =>
    match m with
    | .steps => jsNumOr (data .steps) (some 0)
    | _ => jsNumOr (data m) none

/-- `HealthDataService.saveHealthData` for one `(user, day)` slot: create a
fresh row when none is stored, otherwise `Object.assign` the update onto the
stored row. -/
def saveHealthData (existing : Option StoredFields) (data : HealthUpdate) : StoredFields :=
  match existing with
  | none => createHealthRow data
  | some s => objectAssign s data

/-! ## Backfill (`HealthDataService.fetchRealDataFromGoogleFit`) -/

/-- JS truthiness of a nullable integer column (`null` and `0` are falsy). -/
def jsTruthyInt (v : Option Int) : Bool :=
  match v with
  | some n => n ≠ 0
  | none => false

/-- JS truthiness of a nullable decimal column. -/
def jsTruthyQ (v : Option ℚ) : Bool :=
  match v with
  | some q => q ≠ 0
  | none => false

/-- The save-and-count condition of the backfill loop:
`steps > 0 || heartRate || calories || distance`. -/
def daySaved (d : DailyRecord) : Bool :=
  decide (0 < d.steps) || jsTruthyInt d.heart_rate || jsTruthyInt d.calories
    || jsTruthyQ d.distance

/-- One backfill day: skip it entirely when a record is already stored;
otherwise run the fetch cycle (counted in the second component) and count the
day (first component) when the fetched values satisfy `daySaved`. -/
def backfillStep (existing : Nat → Bool) (outcome : Nat → DailyRecord)
    (acc : Nat × Nat) (i : Nat) : Nat × Nat :=
  if existing i then acc
  else ((if daySaved (outcome i) then acc.1 + 1 else acc.1), acc.2 + 1)

/-- `HealthDataService.fetchRealDataFromGoogleFit`: iterate day offsets
`0, 1, …, days-1` backward from today; `existing i` says whether day `i`
already has a stored record, `outcome i` is the settled fetch-cycle result
for day `i`. Returns `(fetchedCount, number of fetch cycles run)`. -/
def backfill (days : Nat) (existing : Nat → Bool) (outcome : Nat → DailyRecord) :
    Nat × Nat :=
  (List.range days).foldl (backfillStep existing outcome) (0, 0)

/-! ## Derived views and spec-worded comparison definitions -/

/-- A bucket reduced to its first dataset's first point (what the
steps/calories/distance/active-minutes loops actually consume). -/
def truncBucket (b : FitBucket) : FitBucket :=
  ⟨(b.dataset.map (fun d => (⟨d.point.take 1⟩ : FitDataset))).take 1⟩

/-- A whole response reduced bucket-wise to first-dataset-first-point. -/
def firstOnly (r : AggResp) : AggResp :=
  ⟨r.bucket.map truncBucket⟩

/-- Modelled from the spec: "sum the per-bucket point values across the whole
window" read over every point of every bucket (`intVal` metrics). -/
def specSumAllPointsInt (r : AggResp) : Int :=
  ((allPoints r).filterMap (fun p => p.intVal)).sum

/-- Nanosecond durations of every point of every dataset of every bucket. -/
def allPointsDurationNanos (r : AggResp) : Int :=
  ((allPoints r).map pointDurationNanos).sum

/-- Sleep nanoseconds contributed by one bucket (its first dataset). -/
def bucketSleepNanos (b : FitBucket) : Int :=
  match b.dataset.head? with
  | none => 0
  | some d => (d.point.map pointDurationNanos).sum

/-- Modelled from the spec: the per-stream "latest-by-timestamp, else mean"
extraction that §4.5 step 2 says the raw-source fallback repeats
(the aggregate-stage scan applied to a raw point list). -/
def specLatestElseMean (ps : List FitPoint) : Option Int :=
  match ps.foldl hrStep ⟨none, 0, []⟩ with
  | ⟨some hr, _, _⟩ => some hr
  | ⟨none, _, vals⟩ =>
    if 0 < vals.length then some (round (vals.sum / (vals.length : ℚ)))
    else none

/-- Modelled from the spec: a backfill day "produced at least one non-absent
metric" (steps count when positive, zero being their fallback default). -/
def specDayNonAbsent (d : DailyRecord) : Bool :=
  decide (0 < d.steps) || d.heart_rate.isSome || d.calories.isSome
    || d.distance.isSome || d.weight.isSome || d.height.isSome
    || d.sleep_duration.isSome || d.active_minutes.isSome || d.speed.isSome

/-! ## Concrete instances used by witnesses and counterexamples -/

/-- A user with a stored (but expired, as the provider will answer 401)
access token and a valid refresh token. -/
def uC1 : Option UserRec := some ⟨some "A", some "R"⟩

/-- A provider that answers 401 to the stale token and succeeds on the
refreshed one. -/
def callC1 : String → HttpResp Nat :=
  fun t => if t = "A" then .err 401 none else .ok 42

/-- A token endpoint that issues a new access token without rotating the
refresh token. -/
def teC1 : TokenResp := .ok "B" none

/-- An aggregate response with no buckets. -/
def emptyAgg : AggResp := ⟨[]⟩

/-- An aggregate response whose single point reports zero active minutes. -/
def zeroActiveResp : AggResp := ⟨[⟨[⟨[⟨some 1, some 2, none, some 0⟩]⟩]⟩]⟩

/-- Two heart-rate points, T1 < T2, values 60 (float field) and
64 (integer field). -/
def hrExample : AggResp :=
  ⟨[⟨[⟨[⟨some 1, none, some 60, none⟩, ⟨some 2, none, none, some 64⟩]⟩]⟩]⟩

/-- A raw point of value 70 with a (positive) timestamp. -/
def p70 : FitPoint := ⟨some 1, none, some 70, none⟩

/-- A raw point of value 70 with no timestamp field. -/
def pTs0 : FitPoint := ⟨none, none, some 70, none⟩

/-- Stored row with a heart rate of 70 and every other column NULL. -/
def storedC2 : StoredFields :=
  fun m => match m with
  | .heartRate => some 70
  | _ => none

/-- An orchestrator-shaped update: every key present, steps carrying 100 and
every other metric carrying the absent value (their fetches yielded nothing). -/
def updateC2 : HealthUpdate :=
  fun m => match m with
  | .steps => .num 100
  | _ => .nullVal

/-- One bucket whose first dataset holds two step points, 100 and 50. -/
def rC6 : AggResp :=
  ⟨[⟨[⟨[⟨some 1, none, none, some 100⟩, ⟨some 2, none, none, some 50⟩]⟩]⟩]⟩

/-- Sleep segments [10:00–10:30] and [11:00–13:00] of some day, as
nanosecond instants from 10:00: 30 min = 1.8e12 ns, then 2 h starting
one hour later. -/
def sleepExample : AggResp :=
  ⟨[⟨[⟨[⟨some 0, some 1800000000000, none, none⟩,
        ⟨some 3600000000000, some 10800000000000, none, none⟩]⟩]⟩]⟩

/-- A backfill day whose only non-absent metric is a weight of 70 kg. -/
def weightOnlyDay : DailyRecord :=
  ⟨0, none, none, none, some 70, none, none, none, none⟩

/-- A user with no usable access credential (NULL access token). -/
def noCredUser : Option UserRec := some ⟨none, some "R"⟩

/-- An arbitrary provider behavior (all calls fail with a 500). -/
def pcErr : ProviderCalls :=
  ⟨fun _ => .err 500 none, fun _ => .err 500 none, fun _ => .err 500 none,
   fun _ _ => .err 500 none, fun _ => .err 500 none, fun _ => .err 500 none,
   fun _ => .err 500 none, fun _ => .err 500 none, fun _ => .err 500 none,
   fun _ => .err 500 none, fun _ => .err 500 none⟩

/-- An arbitrary token-endpoint outcome. -/
def teErr : TokenResp := .err 400

/-! ## Theorems -/

/-- C9: the credential refresher fails with the distinguished
no-refresh-credential error when the stored pair lacks a refresh credential;
when the provider rejects the refresh credential itself (status 400) it fails
with the distinguished refresh-credential-expired error, distinct from the
generic transport/server failure; and on success it persists the new access
credential together with the provider's new refresh credential when one is
issued, otherwise retaining the previous refresh credential unchanged. -/
theorem refreshAccessToken_spec (u : UserRec) (tokenEndpoint : TokenResp) :
    (u.refresh_token = none →
      refreshAccessToken (some u) tokenEndpoint = .error noRefreshTokenErr) ∧
    (∀ rt, u.refresh_token = some rt → rt ≠ "" →
      (tokenEndpoint = .err 400 →
        refreshAccessToken (some u) tokenEndpoint = .error refreshExpiredErr) ∧
      (∀ s, tokenEndpoint = .err s → s ≠ 400 →
        refreshAccessToken (some u) tokenEndpoint = .error refreshFailedErr) ∧
      (∀ a r, tokenEndpoint = .ok a r →
        refreshAccessToken (some u) tokenEndpoint
          = .ok (a, ⟨some a, some (jsOrStr r rt)⟩) ∧
        (r = none → jsOrStr r rt = rt) ∧
        (∀ t, r = some t → t ≠ "" → jsOrStr r rt = t))) ∧
    (refreshExpiredErr ≠ refreshFailedErr ∧ noRefreshTokenErr ≠ refreshExpiredErr ∧
      noRefreshTokenErr ≠ refreshFailedErr) := by
  refine ⟨?_, ?_, by decide⟩
  · intro h
    simp [refreshAccessToken, h]
  · intro rt hrt hne
    refine ⟨?_, ?_, ?_⟩
    · intro hte
      simp [refreshAccessToken, hrt, hte, hne]
    · intro s hte hs
      simp [refreshAccessToken, hrt, hte, hne, hs]
    · intro a r hte
      refine ⟨by simp [refreshAccessToken, hrt, hte, hne], ?_, ?_⟩
      · intro hr
        simp [jsOrStr, hr]
      · intro t hr htne
        simp [jsOrStr, hr, htne]

/-- Witness for C9: a run of each outcome at concrete credentials — missing
refresh token, provider 400, provider 500, rotation, and no rotation. -/
theorem refreshAccessToken_spec_witness :
    refreshAccessToken (some ⟨some "A", none⟩) (.ok "B" none)
      = .error noRefreshTokenErr ∧
    refreshAccessToken (some ⟨some "A", some "R"⟩) (.err 400)
      = .error refreshExpiredErr ∧
    refreshAccessToken (some ⟨some "A", some "R"⟩) (.err 500)
      = .error refreshFailedErr ∧
    refreshAccessToken (some ⟨some "A", some "R"⟩) (.ok "B" (some "R2"))
      = .ok ("B", ⟨some "B", some "R2"⟩) ∧
    refreshAccessToken (some ⟨some "A", some "R"⟩) (.ok "B" none)
      = .ok ("B", ⟨some "B", some "R"⟩) := by
  refine ⟨?_, ?_, ?_, ?_, ?_⟩
  · exact (refreshAccessToken_spec ⟨some "A", none⟩ (.ok "B" none)).1 rfl
  · exact ((refreshAccessToken_spec ⟨some "A", some "R"⟩ (.err 400)).2.1
      "R" rfl (by decide)).1 rfl
  · exact ((refreshAccessToken_spec ⟨some "A", some "R"⟩ (.err 500)).2.1
      "R" rfl (by decide)).2.1 500 rfl (by decide)
  · have h := ((refreshAccessToken_spec ⟨some "A", some "R"⟩ (.ok "B" (some "R2"))).2.1
      "R" rfl (by decide)).2.2 "B" (some "R2") rfl
    rw [h.1]
    rfl
  · have h := ((refreshAccessToken_spec ⟨some "A", some "R"⟩ (.ok "B" none)).2.1
      "R" rfl (by decide)).2.2 "B" none rfl
    rw [h.1]
    rfl

/-- C1: for a metric fetch whose first provider call answers 401
(expired credential), the executor invokes the refresher exactly once; if the
refresh succeeds with a usable (truthy, i.e. non-empty) new credential, the
original call is retried exactly once with it and that retried call's
outcome (success or failure) is final — the call trace is exactly
`[old token, new token]`; if the refresh fails, and likewise if it yields an
empty (falsy) token, the executor surfaces the distinguished
re-authentication failure after the single initial call, with no retry. -/
theorem makeFitRequest_refresh_once {α : Type} (user : Option UserRec)
    (call : String → HttpResp α) (tokenEndpoint : TokenResp) (tok : String)
    (m : Option String)
    (htok : getAccessToken user = .ok tok)
    (h401 : call tok = .err 401 m) :
    (makeFitRequestT user call tokenEndpoint).refreshCalls = 1 ∧
    (∀ newTok newUser,
      refreshAccessToken user tokenEndpoint = .ok (newTok, newUser) → newTok ≠ "" →
      (makeFitRequestT user call tokenEndpoint).callTokens = [tok, newTok] ∧
      (makeFitRequestT user call tokenEndpoint).result = retryOutcome (call newTok)) ∧
    (∀ e, refreshAccessToken user tokenEndpoint = .error e →
      (makeFitRequestT user call tokenEndpoint).callTokens = [tok] ∧
      (makeFitRequestT user call tokenEndpoint).result
        = .error ⟨401, reAuthMsg⟩) ∧
    (∀ newUser, refreshAccessToken user tokenEndpoint = .ok ("", newUser) →
      (makeFitRequestT user call tokenEndpoint).callTokens = [tok] ∧
      (makeFitRequestT user call tokenEndpoint).result
        = .error ⟨401, reAuthMsg⟩) := by
  have hm : makeFitRequestT user call tokenEndpoint =
      (match refreshAccessToken user tokenEndpoint with
        | .ok (newTok, _) =>
          if newTok = "" then ⟨.error ⟨401, reAuthMsg⟩, 1, [tok]⟩
          else ⟨retryOutcome (call newTok), 1, [tok, newTok]⟩
        | .error _ => ⟨.error ⟨401, reAuthMsg⟩, 1, [tok]⟩) := by
    unfold makeFitRequestT
    rw [htok]
    simp only [h401]
    simp
  refine ⟨?_, ?_, ?_, ?_⟩
  · rw [hm]
    cases h : refreshAccessToken user tokenEndpoint with
    | ok p =>
      obtain ⟨a, b⟩ := p
      by_cases ha : a = ""
      · simp [ha]
      · simp [ha]
    | error e => rfl
  · intro newTok newUser hr hne
    rw [hm, hr]
    simp [hne]
  · intro e hr
    rw [hm, hr]
    exact ⟨rfl, rfl⟩
  · intro newUser hr
    rw [hm, hr]
    exact ⟨rfl, rfl⟩

/-- Witness for C1: a concrete expired-credential run — one refresh, one
retry with the new token, the retried call's success as the final outcome —
and, at the same stale token, a refresh answering with an empty token, which
surfaces the re-authentication error after the single initial call. -/
theorem makeFitRequest_refresh_once_witness :
    (makeFitRequestT uC1 callC1 teC1).refreshCalls = 1 ∧
    (makeFitRequestT uC1 callC1 teC1).callTokens = ["A", "B"] ∧
    (makeFitRequestT uC1 callC1 teC1).result = Except.ok 42 ∧
    (makeFitRequestT uC1 callC1 (.ok "" none)).callTokens = ["A"] ∧
    (makeFitRequestT uC1 callC1 (.ok "" none)).result
      = Except.error ⟨401, reAuthMsg⟩ := by
  have h := makeFitRequest_refresh_once uC1 callC1 teC1 "A" none rfl rfl
  have h2 := h.2.1 "B" ⟨some "B", some "R"⟩ rfl (by decide)
  have h3 := makeFitRequest_refresh_once uC1 callC1 (.ok "" none) "A" none rfl rfl
  have h4 := h3.2.2.2 ⟨some "", some "R"⟩ rfl
  refine ⟨h.1, h2.1, ?_, h4.1, h4.2⟩
  rw [h2.2]
  rfl

/-- C10: the active-minutes fetcher returns absent (not zero) whenever the
summed total over the window is zero — the result is absent exactly when the
total is not positive — so an observed zero total is indistinguishable at
the interface from no data at all (the zero-point response and the empty
response produce the same output). -/
theorem activeMinutes_zero_absent (r : AggResp) :
    (activeMinutesTotal r = 0 → fetchActiveMinutesE (.ok r) = none) ∧
    (fetchActiveMinutesE (.ok r) = none ↔ activeMinutesTotal r ≤ 0) ∧
    fetchActiveMinutesE (.ok zeroActiveResp) = fetchActiveMinutesE (.ok emptyAgg) := by
  refine ⟨?_, ?_, by decide⟩
  · intro h
    simp [fetchActiveMinutesE, h]
  · simp only [fetchActiveMinutesE]
    constructor
    · intro h
      by_contra hle
      push_neg at hle
      rw [if_pos hle] at h
      exact Option.noConfusion h
    · intro h
      rw [if_neg (not_lt.mpr h)]

/-- Witness for C10: the concrete zero-total response resolves to absent. -/
theorem activeMinutes_zero_absent_witness :
    fetchActiveMinutesE (.ok zeroActiveResp) = none :=
  (activeMinutes_zero_absent zeroActiveResp).1 (by decide)

/-- C2 counterexample: a second store whose fetch lost the heart rate (the
field is present carrying the absent value) erases the previously stored
heart rate of 70 — absent fields do erase previously stored values. -/
theorem saveHealthData_absent_erases :
    storedC2 Metric.heartRate = some 70 ∧
    updateC2 Metric.heartRate = JsVal.nullVal ∧
    saveHealthData (some storedC2) updateC2 Metric.heartRate = none :=
  ⟨rfl, rfl, rfl⟩

/-- C2 amended: the second store merges key-wise, not value-wise — a field
whose key is missing from the new fetch object is preserved, but every
present key overwrites the stored column, including keys carrying the absent
value (which erase the previously stored value). -/
theorem saveHealthData_keywise (s : StoredFields) (d : HealthUpdate) (m : Metric) :
    (d m = .missing → saveHealthData (some s) d m = s m) ∧
    (d m = .nullVal → saveHealthData (some s) d m = none) ∧
    (∀ q, d m = .num q → saveHealthData (some s) d m = some q) := by
  refine ⟨?_, ?_, ?_⟩
  · intro h
    simp [saveHealthData, objectAssign, h]
  · intro h
    simp [saveHealthData, objectAssign, h]
  · intro q h
    simp [saveHealthData, objectAssign, h]

/-- Witness for C2: concrete key-wise merge outcomes — a present absent key
erases, a present numeric key overwrites. -/
theorem saveHealthData_keywise_witness :
    saveHealthData (some storedC2) updateC2 Metric.calories = none ∧
    saveHealthData (some storedC2) updateC2 Metric.steps = some 100 :=
  ⟨(saveHealthData_keywise storedC2 updateC2 Metric.calories).2.1 rfl,
   (saveHealthData_keywise storedC2 updateC2 Metric.steps).2.2 100 rfl⟩

/- Foldl characterizations of the summation loops. -/

theorem intFold_eq (l : List FitBucket) (acc : Int) :
    l.foldl
      (fun acc b =>
        match bucketFirstIntVal b with
        | some v => if v = 0 then acc else acc + v
        | none => acc) acc
      = acc + (l.filterMap bucketFirstIntVal).sum := by
  induction l generalizing acc with
  | nil => simp
  | cons b t ih =>
    rw [List.foldl_cons, List.filterMap_cons]
    cases hb : bucketFirstIntVal b with
    | none =>
      show List.foldl _ acc t = acc + (t.filterMap bucketFirstIntVal).sum
      rw [ih]
    | some v =>
      show List.foldl _ (if v = 0 then acc else acc + v) t
          = acc + (v :: t.filterMap bucketFirstIntVal).sum
      rw [List.sum_cons]
      by_cases hv : v = 0
      · subst hv
        rw [if_pos rfl, ih]
        ring
      · rw [if_neg hv, ih]
        ring

theorem fpFold_eq (l : List FitBucket) (acc : ℚ) :
    l.foldl
      (fun acc b =>
        match bucketFirstFpVal b with
        | some v => if v = 0 then acc else acc + v
        | none => acc) acc
      = acc + (l.filterMap bucketFirstFpVal).sum := by
  induction l generalizing acc with
  | nil => simp
  | cons b t ih =>
    rw [List.foldl_cons, List.filterMap_cons]
    cases hb : bucketFirstFpVal b with
    | none =>
      show List.foldl _ acc t = acc + (t.filterMap bucketFirstFpVal).sum
      rw [ih]
    | some v =>
      show List.foldl _ (if v = 0 then acc else acc + v) t
          = acc + (v :: t.filterMap bucketFirstFpVal).sum
      rw [List.sum_cons]
      by_cases hv : v = 0
      · subst hv
        rw [if_pos rfl, ih]
        ring
      · rw [if_neg hv, ih]
        ring

theorem bucketFirstPoint_trunc (b : FitBucket) :
    bucketFirstPoint (truncBucket b) = bucketFirstPoint b := by
  rcases b with ⟨ds⟩
  cases ds with
  | nil => rfl
  | cons d t =>
    rcases d with ⟨ps⟩
    cases ps with
    | nil => rfl
    | cons p pt => rfl

/-- C6 counterexample: with two points in the single bucket's dataset, the
steps fetcher returns only the first point's value (100), while the claimed
sum over all per-bucket point values is 150. -/
theorem fetchSteps_multipoint_counterexample :
    fetchStepsE (.ok rC6) = 100 ∧ specSumAllPointsInt rC6 = 150 ∧
    fetchStepsE (.ok rC6) ≠ specSumAllPointsInt rC6 := by
  decide

/-- C6 amended: the steps, calories and distance fetchers sum, over the
buckets of the window, each bucket's first dataset's first point value only
(distance then converted from meters to kilometers); any further points or
datasets in a bucket are ignored (truncating every bucket to its first
dataset's first point leaves all three results unchanged). -/
theorem sum_fetchers_first_point (r : AggResp) :
    fetchStepsE (.ok r) = (r.bucket.filterMap bucketFirstIntVal).sum ∧
    fetchCaloriesE (.ok r) = some (round ((r.bucket.filterMap bucketFirstFpVal).sum)) ∧
    fetchDistanceE (.ok r) = some ((r.bucket.filterMap bucketFirstFpVal).sum / 1000) ∧
    fetchStepsE (.ok (firstOnly r)) = fetchStepsE (.ok r) ∧
    fetchCaloriesE (.ok (firstOnly r)) = fetchCaloriesE (.ok r) ∧
    fetchDistanceE (.ok (firstOnly r)) = fetchDistanceE (.ok r) := by
  have hint : ∀ rr : AggResp, stepsTotal rr = (rr.bucket.filterMap bucketFirstIntVal).sum := by
    intro rr
    rw [stepsTotal, intFold_eq]
    ring
  have hfp : ∀ rr : AggResp, fpTotal rr = (rr.bucket.filterMap bucketFirstFpVal).sum := by
    intro rr
    rw [fpTotal, fpFold_eq]
    ring
  have htruncInt : (firstOnly r).bucket.filterMap bucketFirstIntVal
      = r.bucket.filterMap bucketFirstIntVal := by
    show (r.bucket.map truncBucket).filterMap bucketFirstIntVal = _
    rw [List.filterMap_map]
    refine List.filterMap_congr ?_
    intro b _
    show bucketFirstIntVal (truncBucket b) = bucketFirstIntVal b
    rw [bucketFirstIntVal, bucketFirstIntVal, bucketFirstPoint_trunc]
  have htruncFp : (firstOnly r).bucket.filterMap bucketFirstFpVal
      = r.bucket.filterMap bucketFirstFpVal := by
    show (r.bucket.map truncBucket).filterMap bucketFirstFpVal = _
    rw [List.filterMap_map]
    refine List.filterMap_congr ?_
    intro b _
    show bucketFirstFpVal (truncBucket b) = bucketFirstFpVal b
    rw [bucketFirstFpVal, bucketFirstFpVal, bucketFirstPoint_trunc]
  refine ⟨hint r, ?_, ?_, ?_, ?_, ?_⟩
  · show some (round (fpTotal r)) = _
    rw [hfp r]
  · show some (fpTotal r / 1000) = _
    rw [hfp r]
  · show stepsTotal (firstOnly r) = stepsTotal r
    rw [hint, hint, htruncInt]
  · show some (round (fpTotal (firstOnly r))) = some (round (fpTotal r))
    rw [hfp, hfp, htruncFp]
  · show some (fpTotal (firstOnly r) / 1000) = some (fpTotal r / 1000)
    rw [hfp, hfp, htruncFp]

theorem backfill_foldl_eq (existing : Nat → Bool) (outcome : Nat → DailyRecord)
    (l : List Nat) (acc : Nat × Nat) :
    l.foldl (backfillStep existing outcome) acc
      = (acc.1 + (l.filter (fun i => !existing i && daySaved (outcome i))).length,
         acc.2 + (l.filter (fun i => !existing i)).length) := by
  induction l generalizing acc with
  | nil => simp
  | cons i t ih =>
    rw [List.foldl_cons, ih, List.filter_cons, List.filter_cons]
    cases he : existing i with
    | true => simp [backfillStep, he]
    | false =>
      cases hs : daySaved (outcome i) with
      | true => simp [backfillStep, he, hs, Nat.add_assoc, Nat.add_comm 1]
      | false =>
        simp [backfillStep, he, hs]
        omega

/-- C8 counterexample: one backfill day (no stored record) whose fetch
produced a non-absent metric — a weight of 70 — runs its one fetch cycle but
is not counted: the returned count is 0, not the 1 the claim requires. -/
theorem backfill_count_counterexample :
    specDayNonAbsent weightOnlyDay = true ∧
    (backfill 1 (fun _ => false) (fun _ => weightOnlyDay)).2 = 1 ∧
    (backfill 1 (fun _ => false) (fun _ => weightOnlyDay)).1 = 0 := by
  decide

/-- C8 amended: backfill iterates day offsets from today backward, performs
no fetch cycle for a day that already has a stored record and exactly one
fetch cycle for each remaining day (second component); the returned count
(first component) is the number of fetched days whose cycle produced
steps > 0 or a non-null, non-zero heart rate, calories or distance — days
whose only data is weight, height, sleep, active minutes or speed are
neither saved nor counted. Over 5 days of which days 1 and 3 already have
stored records, exactly 3 fetch cycles occur whatever the fetches yield. -/
theorem backfill_counts (days : Nat) (existing : Nat → Bool)
    (outcome : Nat → DailyRecord) :
    (backfill days existing outcome).2
        = ((List.range days).filter (fun i => !existing i)).length ∧
    (backfill days existing outcome).1
        = ((List.range days).filter
            (fun i => !existing i && daySaved (outcome i))).length ∧
    (∀ oc : Nat → DailyRecord,
      (backfill 5 (fun i => i == 1 || i == 3) oc).2 = 3) := by
  refine ⟨?_, ?_, ?_⟩
  · rw [backfill, backfill_foldl_eq]
    simp
  · rw [backfill, backfill_foldl_eq]
    simp
  · intro oc
    rw [backfill, backfill_foldl_eq]
    show 0 + (((List.range 5).filter (fun i => !(i == 1 || i == 3))).length) = 3
    decide

theorem makeFitRequestT_noCred {α : Type} (user : Option UserRec)
    (call : String → HttpResp α) (te : TokenResp)
    (h : getAccessToken user = .error notAuthFitErr) :
    (makeFitRequestT user call te).result = .error notAuthFitErr := by
  unfold makeFitRequestT
  rw [h]

/-- C3 counterexample: for a user with no usable credential at all (NULL
access token), `fetchAndSaveHealthData` does not surface a hard failure — it
returns the all-default merged record (steps 0, all other metrics absent)
normally. -/
theorem fetchAll_noCred_counterexample :
    fetchAndSaveHealthDataE noCredUser pcErr teErr = .ok defaultRecord := by
  rfl

/-- C3 amended: the orchestrator never fails as a whole — every metric whose
`makeFitRequest` outcome is an error (for any reason, including the 403
`MetricUnavailable` and the no-credential 401) is replaced by that metric's
fallback default (zero for steps, absent otherwise), successful metrics are
parsed unaffected, and when the user has no usable credential at all the
result is the all-default record returned normally, not a hard
re-authorization failure. -/
theorem fetchAll_no_total_failure (w : FetchWorld) :
    (∀ e, w.stepsR = .error e → (fetchAllW w).steps = 0) ∧
    (∀ e, w.hrW.agg = .error e → (fetchAllW w).heart_rate = none) ∧
    (∀ e, w.caloriesR = .error e → (fetchAllW w).calories = none) ∧
    (∀ e, w.distanceR = .error e → (fetchAllW w).distance = none) ∧
    (∀ e, w.weightR = .error e → (fetchAllW w).weight = none) ∧
    (∀ e, w.heightR = .error e → (fetchAllW w).height = none) ∧
    (∀ e, w.sleepR = .error e → (fetchAllW w).sleep_duration = none) ∧
    (∀ e, w.activeR = .error e → (fetchAllW w).active_minutes = none) ∧
    (∀ e, w.speedR = .error e → (fetchAllW w).speed = none) ∧
    (∀ r, w.stepsR = .ok r → (fetchAllW w).steps = stepsTotal r) ∧
    (∀ r, w.caloriesR = .ok r → (fetchAllW w).calories = some (round (fpTotal r))) ∧
    (∀ user pc te, getAccessToken user = .error notAuthFitErr →
      fetchAndSaveHealthDataE user pc te = .ok defaultRecord) := by
  refine ⟨?_, ?_, ?_, ?_, ?_, ?_, ?_, ?_, ?_, ?_, ?_, ?_⟩
  · intro e h
    simp [fetchAllW, fetchStepsE, h]
  · intro e h
    simp [fetchAllW, fetchHeartRateW, h]
  · intro e h
    simp [fetchAllW, fetchCaloriesE, h]
  · intro e h
    simp [fetchAllW, fetchDistanceE, h]
  · intro e h
    simp [fetchAllW, fetchWeightE, h]
  · intro e h
    simp [fetchAllW, fetchHeightE, h]
  · intro e h
    simp [fetchAllW, fetchSleepE, h]
  · intro e h
    simp [fetchAllW, fetchActiveMinutesE, h]
  · intro e h
    simp [fetchAllW, fetchSpeedE, h]
  · intro r h
    simp [fetchAllW, fetchStepsE, h]
  · intro r h
    simp [fetchAllW, fetchCaloriesE, h]
  · intro user pc te h
    have hs : ∀ c : String → HttpResp AggResp,
        (makeFitRequestT user c te).result = .error notAuthFitErr :=
      fun c => makeFitRequestT_noCred user c te h
    have hl : (makeFitRequestT user pc.hrSourcesCall te).result
        = .error notAuthFitErr := makeFitRequestT_noCred user pc.hrSourcesCall te h
    simp only [fetchAndSaveHealthDataE, worldOf, hs, hl]
    rfl

/-- Witness for C3: a concrete no-credential run yields the all-default
record (and its steps slot carries the fallback 0). -/
theorem fetchAll_no_total_failure_witness :
    fetchAndSaveHealthDataE noCredUser pcErr teErr = .ok defaultRecord ∧
    (fetchAllW (worldOf noCredUser pcErr teErr)).steps = 0 :=
  ⟨(fetchAll_no_total_failure
      (worldOf noCredUser pcErr teErr)).2.2.2.2.2.2.2.2.2.2.2 noCredUser pcErr teErr rfl,
   (fetchAll_no_total_failure (worldOf noCredUser pcErr teErr)).1 notAuthFitErr rfl⟩

theorem foldl_add_dur (l : List FitPoint) (acc : Int) :
    l.foldl (fun a p => a + pointDurationNanos p) acc
      = acc + (l.map pointDurationNanos).sum := by
  induction l generalizing acc with
  | nil => simp
  | cons p t ih =>
    rw [List.foldl_cons, ih, List.map_cons, List.sum_cons]
    ring

theorem sleep_foldl_eq (l : List FitBucket) (acc : Int) :
    l.foldl
      (fun acc b =>
        match b.dataset.head? with
        | none => acc
        | some d => acc + d.point.foldl (fun a p => a + pointDurationNanos p) 0) acc
      = acc + (l.map bucketSleepNanos).sum := by
  induction l generalizing acc with
  | nil => simp
  | cons b t ih =>
    rw [List.foldl_cons, List.map_cons, List.sum_cons]
    cases hd : b.dataset.head? with
    | none =>
      show List.foldl _ acc t = acc + (bucketSleepNanos b + (t.map bucketSleepNanos).sum)
      rw [ih, bucketSleepNanos, hd]
      ring
    | some d =>
      show List.foldl _ (acc + d.point.foldl (fun a p => a + pointDurationNanos p) 0) t
          = acc + (bucketSleepNanos b + (t.map bucketSleepNanos).sum)
      rw [ih, bucketSleepNanos, hd, foldl_add_dur]
      ring

theorem sleepTotal_buckets (r : AggResp) :
    sleepTotalNanos r = (r.bucket.map bucketSleepNanos).sum := by
  rw [sleepTotalNanos, sleep_foldl_eq]
  ring

theorem bucket_single_dataset_points (b : FitBucket) (h : b.dataset.length ≤ 1) :
    b.dataset.flatMap (fun d => d.point)
      = (match b.dataset.head? with
         | none => []
         | some d => d.point) := by
  rcases b with ⟨ds⟩
  cases ds with
  | nil => rfl
  | cons d t =>
    cases t with
    | nil => simp
    | cons d2 t2 => simp at h

theorem sleepTotal_eq_allPoints (r : AggResp)
    (hb : ∀ b ∈ r.bucket, b.dataset.length ≤ 1) :
    sleepTotalNanos r = allPointsDurationNanos r := by
  rw [sleepTotal_buckets, allPointsDurationNanos, allPoints]
  rcases r with ⟨bs⟩
  simp only at hb ⊢
  induction bs with
  | nil => rfl
  | cons b t ih =>
    rw [List.map_cons, List.sum_cons, List.flatMap_cons, List.map_append,
      List.sum_append, ih (fun x hx => hb x (List.mem_cons_of_mem b hx))]
    have hbl := hb b (List.mem_cons_self b t)
    rw [bucketSleepNanos, bucket_single_dataset_points b hbl]
    cases hd : b.dataset.head? with
    | none => simp [hd]
    | some d => simp [hd]

/-- C7: the sleep fetcher returns the sum, across all buckets and all their
points, of the duration between each point's start and end timestamps (not
the point's value field), converted from nanoseconds to hours — stated for
responses whose buckets carry the single dataset produced by the one
`aggregateBy` clause of the query. In particular, the two segments
[10:00–10:30] and [11:00–13:00] resolve to 2.5 hours. -/
theorem fetchSleep_sums_durations (r : AggResp)
    (hb : ∀ b ∈ r.bucket, b.dataset.length ≤ 1) :
    sleepTotalNanos r = allPointsDurationNanos r ∧
    (0 < sleepTotalNanos r →
      fetchSleepE (.ok r)
        = some ((sleepTotalNanos r : ℚ) / (3600 * 1000000000))) ∧
    fetchSleepE (.ok sleepExample) = some (5 / 2) := by
  refine ⟨sleepTotal_eq_allPoints r hb, ?_, ?_⟩
  case refine_2 =>
    have h : sleepTotalNanos sleepExample = 9000000000000 := by decide
    have h2 : sleepExample.bucket.length = 1 := rfl
    simp only [fetchSleepE, h, h2]
    norm_num
  intro hpos
  have hbne : r.bucket ≠ [] := by
    intro h0
    rw [show sleepTotalNanos r = 0 by rw [sleepTotal_buckets, h0]; rfl] at hpos
    exact lt_irrefl 0 hpos
  have hlen : 0 < r.bucket.length := List.length_pos.mpr hbne
  have hms : (0 : ℚ) < (sleepTotalNanos r : ℚ) / 1000000 := by
    apply div_pos
    · exact_mod_cast hpos
    · norm_num
  rw [fetchSleepE]
  rw [if_pos hlen, if_pos hms]
  rw [div_div]
  norm_num

/-- Witness for C7: the concrete two-segment response resolves to 2.5 h. -/
theorem fetchSleep_sums_durations_witness :
    fetchSleepE (.ok sleepExample) = some (5 / 2) :=
  (fetchSleep_sums_durations sleepExample (by decide)).2.2

theorem hrStep_val_none (s : HrScan) (p : FitPoint) (h : jsPointVal p = none) :
    hrStep s p = s := by
  simp [hrStep, h]

theorem hrStep_val_gt (s : HrScan) (p : FitPoint) (v : ℚ)
    (h : jsPointVal p = some v) (ht : s.latestTS < parseTs p) :
    hrStep s p = ⟨some (round v), parseTs p, s.vals ++ [v]⟩ := by
  simp [hrStep, h, ht]

theorem hrStep_val_le (s : HrScan) (p : FitPoint) (v : ℚ)
    (h : jsPointVal p = some v) (ht : ¬ s.latestTS < parseTs p) :
    hrStep s p = ⟨s.latestHR, s.latestTS, s.vals ++ [v]⟩ := by
  simp [hrStep, h, ht]

theorem hrFold_vals (ps : List FitPoint) (s : HrScan) :
    (ps.foldl hrStep s).vals = s.vals ++ ps.filterMap jsPointVal := by
  induction ps generalizing s with
  | nil => simp
  | cons p t ih =>
    rw [List.foldl_cons, List.filterMap_cons]
    cases h : jsPointVal p with
    | none =>
      rw [hrStep_val_none s p h, ih]
    | some v =>
      by_cases ht : s.latestTS < parseTs p
      · rw [hrStep_val_gt s p v h ht, ih]
        simp
      · rw [hrStep_val_le s p v h ht, ih]
        simp

theorem hrFold_latest (ps : List FitPoint) (s : HrScan) :
    ((ps.foldl hrStep s).latestTS = s.latestTS ∧
     (ps.foldl hrStep s).latestHR = s.latestHR ∧
     ∀ q ∈ ps, ∀ w, jsPointVal q = some w → parseTs q ≤ s.latestTS)
    ∨ (∃ p ∈ ps, ∃ v, jsPointVal p = some v ∧ s.latestTS < parseTs p ∧
        (ps.foldl hrStep s).latestTS = parseTs p ∧
        (ps.foldl hrStep s).latestHR = some (round v) ∧
        ∀ q ∈ ps, ∀ w, jsPointVal q = some w → parseTs q ≤ parseTs p) := by
  induction ps generalizing s with
  | nil =>
    left
    exact ⟨rfl, rfl, by simp⟩
  | cons p t ih =>
    rw [List.foldl_cons]
    cases h : jsPointVal p with
    | none =>
      rw [hrStep_val_none s p h]
      rcases ih s with ⟨h1, h2, h3⟩ | ⟨p1, hp1, v1, hv1, hlt, h1, h2, h3⟩
      · left
        refine ⟨h1, h2, ?_⟩
        intro q hq w hw
        rcases List.mem_cons.mp hq with rfl | hq1
        · rw [h] at hw
          exact Option.noConfusion hw
        · exact h3 q hq1 w hw
      · right
        refine ⟨p1, List.mem_cons_of_mem p hp1, v1, hv1, hlt, h1, h2, ?_⟩
        intro q hq w hw
        rcases List.mem_cons.mp hq with rfl | hq1
        · rw [h] at hw
          exact Option.noConfusion hw
        · exact h3 q hq1 w hw
    | some v =>
      by_cases ht : s.latestTS < parseTs p
      · rw [hrStep_val_gt s p v h ht]
        rcases ih ⟨some (round v), parseTs p, s.vals ++ [v]⟩ with
          ⟨h1, h2, h3⟩ | ⟨p1, hp1, v1, hv1, hlt, h1, h2, h3⟩
        · right
          refine ⟨p, List.mem_cons_self p t, v, h, ht, h1, h2, ?_⟩
          intro q hq w hw
          rcases List.mem_cons.mp hq with rfl | hq1
          · exact le_refl _
          · exact h3 q hq1 w hw
        · right
          refine ⟨p1, List.mem_cons_of_mem p hp1, v1, hv1, lt_trans ht hlt, h1, h2, ?_⟩
          intro q hq w hw
          rcases List.mem_cons.mp hq with rfl | hq1
          · exact le_of_lt hlt
          · exact h3 q hq1 w hw
      · rw [hrStep_val_le s p v h ht]
        rcases ih ⟨s.latestHR, s.latestTS, s.vals ++ [v]⟩ with
          ⟨h1, h2, h3⟩ | ⟨p1, hp1, v1, hv1, hlt, h1, h2, h3⟩
        · left
          refine ⟨h1, h2, ?_⟩
          intro q hq w hw
          rcases List.mem_cons.mp hq with rfl | hq1
          · exact not_lt.mp ht
          · exact h3 q hq1 w hw
        · right
          refine ⟨p1, List.mem_cons_of_mem p hp1, v1, hv1, hlt, h1, h2, ?_⟩
          intro q hq w hw
          rcases List.mem_cons.mp hq with rfl | hq1
          · exact le_of_lt (lt_of_le_of_lt (not_lt.mp ht) hlt)
          · exact h3 q hq1 w hw

/-- C4: in the heart-rate aggregate stage over a non-empty response, every
point of every bucket is scanned (values in either the floating or the
integer field count): if any valued point has a positive start-timestamp,
the resolver returns the rounded value of a valued point whose timestamp is
maximal among all scanned valued points; otherwise, if any values were
collected, it returns their rounded arithmetic mean. In particular, two
points timestamped 1 < 2 with values 60 and 64 resolve to 64, not 62. -/
theorem heartRate_latest_else_mean (r : AggResp) (hb : r.bucket ≠ []) :
    ((∃ p ∈ allPoints r, ∃ v, jsPointVal p = some v ∧ 0 < parseTs p) →
      ∃ p ∈ allPoints r, ∃ v, jsPointVal p = some v ∧
        (∀ q ∈ allPoints r, ∀ w, jsPointVal q = some w → parseTs q ≤ parseTs p) ∧
        hrAggExtract r = some (round v)) ∧
    ((∀ p ∈ allPoints r, ∀ w, jsPointVal p = some w → parseTs p ≤ 0) →
      (allPoints r).filterMap jsPointVal ≠ [] →
      hrAggExtract r
        = some (round (((allPoints r).filterMap jsPointVal).sum
            / (((allPoints r).filterMap jsPointVal).length : ℚ)))) ∧
    hrAggExtract hrExample = some 64 := by
  have hlen : 0 < r.bucket.length := List.length_pos.mpr hb
  refine ⟨?_, ?_, ?_⟩
  · rintro ⟨p0, hp0, v0, hv0, ht0⟩
    rcases hrFold_latest (allPoints r) ⟨none, 0, []⟩ with
      ⟨h1, h2, h3⟩ | ⟨p, hp, v, hv, hlt, h1, h2, h3⟩
    · exact absurd (h3 p0 hp0 v0 hv0) (not_le.mpr ht0)
    · refine ⟨p, hp, v, hv, h3, ?_⟩
      rcases hs : (allPoints r).foldl hrStep ⟨none, 0, []⟩ with ⟨lhr, lts, lvals⟩
      have h2a : lhr = some (round v) := by
        rw [hs] at h2
        exact h2
      simp [hrAggExtract, hrScanAll, hs, hlen, h2a]
  · intro hall hne
    rcases hrFold_latest (allPoints r) ⟨none, 0, []⟩ with
      ⟨h1, h2, h3⟩ | ⟨p, hp, v, hv, hlt, h1, h2, h3⟩
    · have hvals := hrFold_vals (allPoints r) ⟨none, 0, []⟩
      rcases hs : (allPoints r).foldl hrStep ⟨none, 0, []⟩ with ⟨lhr, lts, lvals⟩
      have h2a : lhr = none := by
        rw [hs] at h2
        exact h2
      have hva : lvals = (allPoints r).filterMap jsPointVal := by
        rw [hs] at hvals
        simpa using hvals
      have hlv : 0 < lvals.length := by
        rw [hva]
        exact List.length_pos.mpr hne
      simp only [hrAggExtract, hrScanAll, hs, h2a]
      rw [if_pos hlen, if_pos hlv, hva]
    · exact absurd (hall p hp v hv) (not_le.mpr hlt)
  · have hs1 : hrStep ⟨none, 0, []⟩ ⟨some 1, none, some 60, none⟩
        = ⟨some (round (60 : ℚ)), 1, [60]⟩ := by
      simp [hrStep, jsPointVal, parseTs]
    have hs2 : hrStep ⟨some (round (60 : ℚ)), 1, [60]⟩ ⟨some 2, none, none, some 64⟩
        = ⟨some (round ((64 : ℤ) : ℚ)), 2, [60, ((64 : ℤ) : ℚ)]⟩ := by
      simp [hrStep, jsPointVal, parseTs]
    have hscan : hrScanAll hrExample = ⟨some (round ((64 : ℤ) : ℚ)), 2, [60, ((64 : ℤ) : ℚ)]⟩ := by
      rw [hrScanAll]
      rw [show allPoints hrExample
          = [⟨some 1, none, some 60, none⟩, ⟨some 2, none, none, some 64⟩] from rfl]
      rw [List.foldl_cons, hs1, List.foldl_cons, hs2, List.foldl_nil]
    have h64 : round ((64 : ℤ) : ℚ) = 64 := by norm_num
    have hl : 0 < hrExample.bucket.length := by decide
    simp only [hrAggExtract, hscan, h64, if_pos hl]

/-- Witness for C4: the concrete two-point response (values 60 and 64 at
timestamps 1 < 2) resolves latest-wins to 64. -/
theorem heartRate_latest_else_mean_witness :
    hrAggExtract hrExample = some 64 :=
  (heartRate_latest_else_mean hrExample (by decide)).2.2

/-- C5 counterexample: an empty aggregate response plus one raw stream whose
single point carries value 70 but no positive timestamp resolves to absent,
while the claimed per-stream "latest-by-timestamp, else mean" extraction
would resolve it to 70 — the raw fallback has no mean step. -/
theorem heartRate_raw_no_mean_counterexample :
    fetchHeartRateW ⟨.ok emptyAgg, .ok [⟨.ok ⟨[pTs0]⟩⟩]⟩ = none ∧
    specLatestElseMean [pTs0] = some 70 := by
  constructor
  · rfl
  · have hstep : hrStep ⟨none, 0, []⟩ pTs0 = ⟨none, 0, [70]⟩ := by
      simp [hrStep, jsPointVal, parseTs, pTs0]
    simp only [specLatestElseMean, List.foldl_cons, hstep, List.foldl_nil]
    norm_num

/-- C5 amended: the raw-source fallback runs only when the aggregate stage
yields nothing, tries the registered streams in listing order, swallows
per-stream failures (trying the next stream), returns on the first stream
whose dataset yields a latest-by-timestamp value — the per-stream extraction
is latest-by-timestamp only, with no mean fallback, so a stream whose points
lack a positive timestamp yields nothing — and returns absent when both
stages yield nothing. An empty aggregate response plus one raw stream with a
single timestamped point of value 70 resolves to 70. -/
theorem heartRate_raw_fallback (r : AggResp) (streams : List StreamFetch) :
    (∀ hr, hrAggExtract r = some hr → fetchHeartRateW ⟨.ok r, .ok streams⟩ = some hr) ∧
    (hrAggExtract r = none → fetchHeartRateW ⟨.ok r, .ok streams⟩ = tryStreams streams) ∧
    (∀ e rest, tryStreams (⟨.error e⟩ :: rest) = tryStreams rest) ∧
    (∀ d rest hr, rawExtract d.point = some hr → tryStreams (⟨.ok d⟩ :: rest) = some hr) ∧
    (∀ d rest, rawExtract d.point = none → tryStreams (⟨.ok d⟩ :: rest) = tryStreams rest) ∧
    (hrAggExtract r = none → tryStreams streams = none →
      fetchHeartRateW ⟨.ok r, .ok streams⟩ = none) ∧
    fetchHeartRateW ⟨.ok emptyAgg, .ok [⟨.ok ⟨[p70]⟩⟩]⟩ = some 70 := by
  refine ⟨?_, ?_, ?_, ?_, ?_, ?_, ?_⟩
  · intro hr h
    simp [fetchHeartRateW, h]
  · intro h
    simp [fetchHeartRateW, h]
  · intro e rest
    rfl
  · intro d rest hr h
    have hne : d.point ≠ [] := by
      intro h0
      rw [h0] at h
      exact Option.noConfusion h
    simp [tryStreams, List.length_pos.mpr hne, h]
  · intro d rest h
    by_cases hp : 0 < d.point.length
    · simp [tryStreams, hp, h]
    · simp [tryStreams, hp]
  · intro h1 h2
    simp [fetchHeartRateW, h1, h2]
  · have h70 : round (70 : ℚ) = 70 := by norm_num
    have hre : rawExtract [p70] = some (round (70 : ℚ)) := by
      simp [rawExtract, rawStep, jsPointVal, parseTs, p70]
    simp [fetchHeartRateW, emptyAgg, hrAggExtract, tryStreams, hre, h70]

/-- Witness for C5: the concrete empty-aggregate run falls back to the raw
stream and resolves 70; with no streams at all both stages yield nothing and
the result is absent. -/
theorem heartRate_raw_fallback_witness :
    fetchHeartRateW ⟨.ok emptyAgg, .ok [⟨.ok ⟨[p70]⟩⟩]⟩ = some 70 ∧
    fetchHeartRateW ⟨.ok emptyAgg, .ok []⟩ = none :=
  ⟨(heartRate_raw_fallback emptyAgg [⟨.ok ⟨[p70]⟩⟩]).2.2.2.2.2.2,
   (heartRate_raw_fallback emptyAgg []).2.2.2.2.2.1 rfl rfl⟩

end HealthFit
